import Mathlib

/-!
Verification of the dependency-guard module `dask_compat.py`.

The module provides platform-detection flags, a `get_version` helper that
reads a loaded module's self-reported version string, and
`import_optional_dependency`, which imports a named optional dependency and
enforces a minimum version according to an `errors` policy in
`{raise, warn, ignore}`.

The embedding below models the Python runtime facilities the module uses:
an environment supplies the result of `importlib.import_module` and the
contents of `sys.modules`; a Python module object is its name together with
an optional `__version__` attribute; exceptions become an explicit error
type; warnings are collected in a list.  `packaging.version.Version` (an
external library) is modelled by `parseVersion` / `PVersion`: dotted
numeric release versions compared componentwise, with parse failure on
anything else — the claims depend only on parse success / failure and on
the order, never on PEP 440 details.
-/

/-- A loaded Python module object: its `__name__` and its `__version__`
attribute (`none` when the attribute is absent). -/
structure PyModule where
  name : String
  version : Option String
deriving Repr, DecidableEq

/-- The runtime environment: the behaviour of `importlib.import_module`
(`none` means the import raises `ImportError`) and of `sys.modules`. -/
structure Env where
  importModule : String → Option PyModule
  sysModules : String → Option PyModule

/-- The Python exceptions the module can raise. -/
inductive PyError where
  /-- `ImportError(msg)`. -/
  | importError (msg : String)
  /-- `packaging.version.InvalidVersion` propagating uncaught
  (from `Version(minimum_version)`, which sits outside the `try`). -/
  | invalidVersion (s : String)
  /-- `AssertionError` from the policy precondition check. -/
  | assertionError (msg : String)
  /-- `IndexError` (from `version.split()[0]` on an all-whitespace string). -/
  | indexError
deriving Repr, DecidableEq

/-- The observable result of a call: a returned module, `None`, or a raised
exception. -/
inductive ImportResult where
  | ok (m : PyModule)
  | absent
  | raised (e : PyError)
deriving Repr, DecidableEq

/-- A call's result together with the warnings it emitted, in order. -/
structure Outcome where
  result : ImportResult
  warnings : List String
deriving Repr, DecidableEq

/-- Split a character list at every separator character, keeping empty
pieces — the behaviour of Python's `str.split(sep)`. -/
def splitCharsOn (sep : Char) : List Char → List Char → List (List Char)
  | [], acc => [acc.reverse]
  | c :: cs, acc =>
    if c = sep then acc.reverse :: splitCharsOn sep cs []
    else splitCharsOn sep cs (c :: acc)

/-- Python `s.split(sep)` for a one-character separator. -/
def pySplitOn (s : String) (sep : Char) : List String :=
  (splitCharsOn sep s.toList []).map (fun l => String.mk l)

/-- Split a character list at whitespace, keeping empty pieces. -/
def splitCharsWs : List Char → List Char → List (List Char)
  | [], acc => [acc.reverse]
  | c :: cs, acc =>
    if c.isWhitespace then acc.reverse :: splitCharsWs cs []
    else splitCharsWs cs (c :: acc)

/-- Python `s.split()` with no argument: split on whitespace runs and drop
empty pieces. -/
def pySplitWs (s : String) : List String :=
  ((splitCharsWs s.toList []).map (fun l => String.mk l)).filter (fun t => t ≠ "")

/-- `d.get(k)` on an association-list model of a Python dict. -/
def dictGet (d : List (String × String)) (k : String) : Option String :=
  (d.find? (fun p => p.1 == k)).map (fun p => p.2)

/-- The top-level package of a dotted import path: `name.split(".")[0]`. -/
def parentOf (name : String) : String :=
  (pySplitOn name '.').headD ""

/-- The `VERSIONS` table: minimum supported versions keyed by top-level
package name. -/
def VERSIONS : List (String × String) :=
  [("numpy", "1.21.0"), ("pandas", "2.0.0"), ("bokeh", "2.4.2"),
   ("jinja2", "2.10.3"), ("pyarrow", "7.0.0"), ("lz4", "4.3.2")]

/-- The `INSTALL_MAPPING` table: import name to PyPI package name where the
two differ. -/
def INSTALL_MAPPING : List (String × String) :=
  [("sqlalchemy", "SQLAlchemy"), ("tables", "pytables")]

/-- Parsed model of `packaging.version.Version`: the dotted release
components. -/
structure PVersion where
  parts : List Nat
deriving Repr, DecidableEq

/-- Accumulate decimal digits; fail on any non-digit. -/
def parseNatAux : List Char → Nat → Option Nat
  | [], n => some n
  | c :: cs, n =>
    if c.isDigit then parseNatAux cs (n * 10 + (c.toNat - 48)) else none

/-- Parse a non-empty all-digit character list as a natural number. -/
def parseNatComp : List Char → Option Nat
  | [] => none
  | cs => parseNatAux cs 0

/-- Model of the `Version(s)` constructor: parse a dotted numeric version,
`none` when the constructor would raise `InvalidVersion`. -/
def parseVersion (s : String) : Option PVersion :=
  ((pySplitOn s '.').mapM (fun p => parseNatComp p.toList)).map PVersion.mk

/-- Componentwise strict order on release component lists, padding the
shorter list with zeros — the order `packaging` uses on release segments. -/
def ltParts : List Nat → List Nat → Bool
  | [], [] => false
  | [], b :: bs => if b = 0 then ltParts [] bs else true
  | _ :: _, [] => false
  | a :: as, b :: bs => a < b || (a == b && ltParts as bs)

/-- Rendering of a parsed version, as `str(Version(...))` produces it for
release-only versions. -/
def PVersion.render (v : PVersion) : String :=
  String.intercalate "." (v.parts.map (fun n => toString n))

/-- `get_version(module)`: the module's `__version__`, with the
psycopg2-specific truncation to the first whitespace-delimited token. -/
def get_version (module : PyModule) : Except PyError String :=
  match module.version with
  | none =>
    .error (.importError
      ("Cannot determine the version for the module \x27" ++ module.name ++ "\x27."))
  | some version =>
    if version = "" then
      .error (.importError
        ("Cannot determine the version for the module \x27" ++ module.name ++ "\x27."))
    else if module.name = "psycopg2" then
      match pySplitWs version with
      | [] => .error .indexError
      | v :: _ => .ok v
    else
      .ok version

/-- Python `x or y` on `Optional[str]`: `x` when it is truthy (non-`None`
and non-empty), else `y`. -/
def pyOr (x y : Option String) : Option String :=
  match x with
  | some v => if v = "" then y else some v
  | none => y

/-- The "missing optional dependency" message built at the top of
`import_optional_dependency`. -/
def missing_dep_msg (package_name extra : String) : String :=
  "Missing optional dependency \x27" ++ package_name ++ "\x27. " ++ extra ++
    " Use pip or conda to install " ++ package_name ++ "."

/-- The version-mismatch message built when the installed version is below
the floor. -/
def version_mismatch_msg (parent : String) (installed required : PVersion) : String :=
  "\x27" ++ parent ++ "\x27 version \x27" ++ installed.render ++
    "\x27 is installed; Dask requires version \x27" ++ required.render ++
    "\x27 or newer."

/-- The "invalid version" message raised when the installed version string
fails to parse. -/
def invalid_version_msg (parent : String) : String :=
  "Invalid version for the module \x27" ++ parent ++ "\x27."

/-- `import_optional_dependency`, parameterised over the two module-global
tables (instantiated with `VERSIONS` and `INSTALL_MAPPING` below) and over
the runtime environment. -/
def import_optional_dependency_core
    (versions install_mapping : List (String × String)) (env : Env)
    (name : String) (extra : String) (min_version : Option String)
    (errors : String) : Outcome :=
  if errors = "warn" ∨ errors = "raise" ∨ errors = "ignore" then
    match env.importModule name with
    | none =>
      if errors = "raise" then
        ⟨.raised (.importError
          (missing_dep_msg ((dictGet install_mapping name).getD name) extra)), []⟩
      else ⟨.absent, []⟩
    | some module =>
      match pyOr min_version (dictGet versions (parentOf name)) with
      | none => ⟨.ok module, []⟩
      | some minimum_version =>
        if minimum_version = "" then ⟨.ok module, []⟩
        else
          match get_version
              ((env.sysModules (parentOf name)).getD module) with
          | .error e => ⟨.raised e, []⟩
          | .ok version_str =>
            match parseVersion version_str with
            | none =>
              ⟨.raised (.importError
                (invalid_version_msg (parentOf name))), []⟩
            | some installed_version =>
              match parseVersion minimum_version with
              | none => ⟨.raised (.invalidVersion minimum_version), []⟩
              | some required_version =>
                if ltParts installed_version.parts required_version.parts then
                  if errors = "warn" then
                    ⟨.absent,
                      [version_mismatch_msg (parentOf name)
                        installed_version required_version]⟩
                  else if errors = "raise" then
                    ⟨.raised (.importError
                      (version_mismatch_msg (parentOf name)
                        installed_version required_version)), []⟩
                  else ⟨.absent, []⟩
                else ⟨.ok module, []⟩
  else
    ⟨.raised (.assertionError "Invalid error handling strategy specified."), []⟩

/-- `import_optional_dependency` with the module's own tables. -/
def import_optional_dependency (env : Env) (name : String) (extra : String)
    (min_version : Option String) (errors : String) : Outcome :=
  import_optional_dependency_core VERSIONS INSTALL_MAPPING env name extra
    min_version errors

/-- `EMSCRIPTEN`, as a function of `sys.platform`. -/
def EMSCRIPTEN (platform : String) : Bool := platform = "emscripten"

/-- `LINUX`, as a function of `sys.platform`. -/
def LINUX (platform : String) : Bool := platform = "linux"

/-- `MACOS`, as a function of `sys.platform`. -/
def MACOS (platform : String) : Bool := platform = "darwin"

/-- `WINDOWS`, as a function of `sys.platform`. -/
def WINDOWS (platform : String) : Bool := platform = "win32"

/-- Substring occurrence, witnessed by a decomposition. -/
def containsStr (s sub : String) : Prop :=
  ∃ pre post, s = pre ++ sub ++ post

/-- Spec-side guard for the result guarantee: either no version floor
applies to the call, or the version of the module that gets checked (the
already-loaded top-level module when present, the imported module
otherwise) parses and is at least the required floor. -/
def satisfiesFloor (env : Env) (name : String) (min_version : Option String) : Bool :=
  match pyOr min_version (dictGet VERSIONS (parentOf name)) with
  | none => true
  | some mv =>
    if mv = "" then true
    else
      match env.importModule name with
      | none => false
      | some m =>
        match get_version ((env.sysModules (parentOf name)).getD m) with
        | .error _ => false
        | .ok vs =>
          match parseVersion vs, parseVersion mv with
          | some iv, some rv => !ltParts iv.parts rv.parts
          | _, _ => false

/-- An environment in which no module is installed. -/
def envEmpty : Env where
  importModule := fun _ => none
  sysModules := fun _ => none

/-- An environment with a recent numpy installed. -/
def envNumpyNew : Env where
  importModule := fun s => if s = "numpy" then some ⟨"numpy", some "1.30.0"⟩ else none
  sysModules := fun _ => none

/-- An environment with a numpy older than the `VERSIONS` floor installed. -/
def envNumpyOld : Env where
  importModule := fun s => if s = "numpy" then some ⟨"numpy", some "1.0.0"⟩ else none
  sysModules := fun _ => none

/-- An environment with a module that has no `__version__` attribute. -/
def envScipyNoVersion : Env where
  importModule := fun s => if s = "scipy" then some ⟨"scipy", none⟩ else none
  sysModules := fun _ => none

/-- An environment with a module whose version string does not parse. -/
def envBadVersion : Env where
  importModule := fun s =>
    if s = "badmod" then some ⟨"badmod", some "not.a.version"⟩ else none
  sysModules := fun _ => none

theorem get_version_ne_assert (m : PyModule) (s : String) :
    get_version m ≠ .error (.assertionError s) := by
  unfold get_version
  split
  · simp
  · split
    · simp
    · split
      · split <;> simp
      · simp

/-- Any `ok` result of the import helper satisfies the version-floor
guard. -/
theorem ok_satisfiesFloor (env : Env) (name extra : String)
    (min_version : Option String) (errors : String) (m : PyModule)
    (h : (import_optional_dependency env name extra min_version errors).result =
      .ok m) :
    satisfiesFloor env name min_version = true := by
  unfold import_optional_dependency import_optional_dependency_core at h
  unfold satisfiesFloor
  split at h
  · split at h
    · split at h <;> simp_all
    · rename_i module himp
      split at h
      · rfl
      · rename_i minimum_version hmin
        split at h
        · rename_i hmv
          rw [if_pos hmv]
        · rename_i hmv
          rw [if_neg hmv]
          split at h
          · simp_all
          · rename_i version_str hgv
            split at h
            · simp_all
            · rename_i installed_version hiv
              split at h
              · simp_all
              · rename_i required_version hrv
                split at h
                · rename_i hlt
                  split at h
                  · simp_all
                  · split at h <;> simp_all
                · rename_i hlt
                  simp_all
  · simp_all

/-- Any `absent` (`None`) result of the import helper arises only under
the `warn` or `ignore` policy. -/
theorem absent_implies_warn_or_ignore (env : Env) (name extra : String)
    (min_version : Option String) (errors : String)
    (h : (import_optional_dependency env name extra min_version errors).result =
      .absent) :
    errors = "warn" ∨ errors = "ignore" := by
  unfold import_optional_dependency import_optional_dependency_core at h
  split at h
  · rename_i herr
    split at h
    · split at h
      · simp_all
      · rename_i hraise
        rcases herr with h1 | h1 | h1
        · exact Or.inl h1
        · exact absurd h1 hraise
        · exact Or.inr h1
    · split at h
      · simp_all
      · split at h
        · simp_all
        · split at h
          · simp_all
          · split at h
            · simp_all
            · split at h
              · simp_all
              · split at h
                · split at h
                  · rename_i hwarn
                    exact Or.inl hwarn
                  · split at h
                    · simp_all
                    · rename_i hwarn hraise
                      rcases herr with h1 | h1 | h1
                      · exact absurd h1 hwarn
                      · exact absurd h1 hraise
                      · exact Or.inr h1
                · simp_all
  · simp_all

/-- C1: for every name, extra, min_version and every errors policy in
{raise, warn, ignore}, `import_optional_dependency` either returns a module
handle whose checked version satisfies the applicable version floor (or for
which no floor applies), or returns None (and None only when errors is warn
or ignore), or raises an error; it never returns a module handle whose
checked version is below the applicable floor. -/
theorem import_result_guarantee (env : Env) (name extra : String)
    (min_version : Option String) (errors : String)
    (herr : errors = "warn" ∨ errors = "raise" ∨ errors = "ignore") :
    (∃ m, (import_optional_dependency env name extra min_version errors).result =
        .ok m ∧ satisfiesFloor env name min_version = true) ∨
    ((import_optional_dependency env name extra min_version errors).result =
        .absent ∧ (errors = "warn" ∨ errors = "ignore")) ∨
    (∃ e, (import_optional_dependency env name extra min_version errors).result =
        .raised e) := by
  cases hres : (import_optional_dependency env name extra min_version errors).result with
  | ok m =>
    exact Or.inl ⟨m, rfl, ok_satisfiesFloor env name extra min_version errors m hres⟩
  | absent =>
    exact Or.inr (Or.inl
      ⟨rfl, absent_implies_warn_or_ignore env name extra min_version errors hres⟩)
  | raised e => exact Or.inr (Or.inr ⟨e, rfl⟩)

/-- Witness for C1: applies the guarantee at a concrete environment. -/
theorem import_result_guarantee_witness :
    (∃ m, (import_optional_dependency envNumpyNew "numpy" "" none "raise").result =
        .ok m ∧ satisfiesFloor envNumpyNew "numpy" none = true) ∨
    ((import_optional_dependency envNumpyNew "numpy" "" none "raise").result =
        .absent ∧ (("raise" : String) = "warn" ∨ ("raise" : String) = "ignore")) ∨
    (∃ e, (import_optional_dependency envNumpyNew "numpy" "" none "raise").result =
        .raised e) :=
  import_result_guarantee envNumpyNew "numpy" "" none "raise" (Or.inr (Or.inl rfl))

/-- C6: an errors value outside {raise, warn, ignore} fails the assertion
immediately — the outcome is the assertion failure for every environment,
with no import attempted and no other observable effect — while every value
inside the set passes the assertion. -/
theorem errors_policy_assertion (name extra : String) (min_version : Option String)
    (errors : String) :
    (¬(errors = "warn" ∨ errors = "raise" ∨ errors = "ignore") →
      ∀ env : Env, import_optional_dependency env name extra min_version errors =
        ⟨.raised (.assertionError "Invalid error handling strategy specified."), []⟩) ∧
    ((errors = "warn" ∨ errors = "raise" ∨ errors = "ignore") →
      ∀ env : Env,
        (import_optional_dependency env name extra min_version errors).result ≠
          .raised (.assertionError "Invalid error handling strategy specified.")) := by
  constructor
  · intro hbad env
    simp [import_optional_dependency, import_optional_dependency_core, hbad]
  · intro herr env hcontra
    unfold import_optional_dependency import_optional_dependency_core at hcontra
    rw [if_pos herr] at hcontra
    split at hcontra
    · split at hcontra <;> simp_all
    · split at hcontra
      · simp_all
      · split at hcontra
        · simp_all
        · split at hcontra
          · rename_i e hgv
            simp at hcontra
            rw [hcontra] at hgv
            exact get_version_ne_assert _ _ hgv
          · split at hcontra
            · simp_all
            · split at hcontra
              · simp_all
              · split at hcontra
                · split at hcontra
                  · simp_all
                  · split at hcontra <;> simp_all
                · simp_all

/-- Witness for C6: a bogus policy value trips the assertion. -/
theorem errors_policy_assertion_witness :
    import_optional_dependency envEmpty "numpy" "" none "boom" =
      ⟨.raised (.assertionError "Invalid error handling strategy specified."), []⟩ :=
  (errors_policy_assertion "numpy" "" none "boom").1 (by decide) envEmpty

/-- C8: `get_version` truncates the psycopg2 version string
"2.9.3 (dt dec pq3 ext lo64)" to its first whitespace-delimited token
"2.9.3", and applies the truncation for no other module name. -/
theorem get_version_psycopg2_truncation :
    get_version ⟨"psycopg2", some "2.9.3 (dt dec pq3 ext lo64)"⟩ = .ok "2.9.3" ∧
    (∀ n v, n ≠ "psycopg2" → v ≠ "" → get_version ⟨n, some v⟩ = .ok v) := by
  refine ⟨rfl, ?_⟩
  intro n v hn hv
  simp [get_version, hn, hv]

/-- Witness for C8: a version string with trailing text survives unsplit on
a module that is not psycopg2. -/
theorem get_version_psycopg2_truncation_witness :
    get_version ⟨"numpy", some "1.2 extra"⟩ = .ok "1.2 extra" :=
  get_version_psycopg2_truncation.2 "numpy" "1.2 extra" (by decide) (by decide)

/-- C9: for every platform identifier at most one of the four platform
flags is true, and exactly one is true precisely when the identifier is one
of the four recognized platform strings. -/
theorem platform_flags_exclusive (platform : String) :
    ((if EMSCRIPTEN platform then 1 else 0) + (if LINUX platform then 1 else 0) +
        (if MACOS platform then 1 else 0) + (if WINDOWS platform then 1 else 0) ≤ 1) ∧
    (((if EMSCRIPTEN platform then 1 else 0) + (if LINUX platform then 1 else 0) +
        (if MACOS platform then 1 else 0) + (if WINDOWS platform then 1 else 0) = 1) ↔
      (platform = "emscripten" ∨ platform = "linux" ∨ platform = "darwin" ∨
        platform = "win32")) := by
  by_cases h1 : platform = "emscripten" <;>
    by_cases h2 : platform = "linux" <;>
    by_cases h3 : platform = "darwin" <;>
    by_cases h4 : platform = "win32" <;>
    simp_all [EMSCRIPTEN, LINUX, MACOS, WINDOWS]

/-- C10: the installable-name mapping is consulted with the full dotted
name as imported: when the full name is not a key (even though its
top-level segment is), a failed import under raise reports the full dotted
name. -/
theorem install_mapping_full_dotted_name (env : Env) (name extra : String)
    (min_version : Option String)
    (hfull : dictGet INSTALL_MAPPING name = none)
    (htop : (dictGet INSTALL_MAPPING (parentOf name)).isSome = true)
    (himp : env.importModule name = none) :
    import_optional_dependency env name extra min_version "raise" =
      ⟨.raised (.importError (missing_dep_msg name extra)), []⟩ ∧
    containsStr (missing_dep_msg name extra) name := by
  constructor
  · simp [import_optional_dependency, import_optional_dependency_core, himp, hfull]
  · exact ⟨"Missing optional dependency \x27",
      "\x27. " ++ extra ++ " Use pip or conda to install " ++ name ++ ".",
      by simp [missing_dep_msg, String.append_assoc]⟩

/-- Witness for C10: "sqlalchemy.orm" misses the mapping though
"sqlalchemy" hits it, so the message names "sqlalchemy.orm". -/
theorem install_mapping_full_dotted_name_witness :
    import_optional_dependency envEmpty "sqlalchemy.orm" "" none "raise" =
      ⟨.raised (.importError (missing_dep_msg "sqlalchemy.orm" "")), []⟩ ∧
    containsStr (missing_dep_msg "sqlalchemy.orm" "") "sqlalchemy.orm" :=
  install_mapping_full_dotted_name envEmpty "sqlalchemy.orm" "" none
    (by decide) (by decide) rfl

/-- C4: when the import fails, the raise policy raises the
missing-optional-dependency error containing the mapped installable package
name and the extra text, while warn and ignore return None without raising
and without emitting any warning. -/
theorem missing_dependency_policy (env : Env) (name extra : String)
    (min_version : Option String) (errors : String)
    (himp : env.importModule name = none) :
    (errors = "raise" →
      import_optional_dependency env name extra min_version errors =
        ⟨.raised (.importError
          (missing_dep_msg ((dictGet INSTALL_MAPPING name).getD name) extra)), []⟩ ∧
      containsStr (missing_dep_msg ((dictGet INSTALL_MAPPING name).getD name) extra)
        ((dictGet INSTALL_MAPPING name).getD name) ∧
      containsStr (missing_dep_msg ((dictGet INSTALL_MAPPING name).getD name) extra)
        extra) ∧
    ((errors = "warn" ∨ errors = "ignore") →
      import_optional_dependency env name extra min_version errors =
        ⟨.absent, []⟩) := by
  constructor
  · intro he; subst he
    refine ⟨by simp [import_optional_dependency, import_optional_dependency_core, himp],
      ?_, ?_⟩
    · exact ⟨"Missing optional dependency \x27",
        "\x27. " ++ extra ++ " Use pip or conda to install " ++
          ((dictGet INSTALL_MAPPING name).getD name) ++ ".",
        by simp [missing_dep_msg, String.append_assoc]⟩
    · exact ⟨"Missing optional dependency \x27" ++
          ((dictGet INSTALL_MAPPING name).getD name) ++ "\x27. ",
        " Use pip or conda to install " ++
          ((dictGet INSTALL_MAPPING name).getD name) ++ ".",
        by simp [missing_dep_msg, String.append_assoc]⟩
  · intro he
    rcases he with he | he <;> subst he <;>
      simp [import_optional_dependency, import_optional_dependency_core, himp]

/-- Witness for C4: a mapped name ("tables" installs as "pytables") under
the raise policy. -/
theorem missing_dependency_policy_witness :
    import_optional_dependency envEmpty "tables" "" none "raise" =
      ⟨.raised (.importError
        (missing_dep_msg ((dictGet INSTALL_MAPPING "tables").getD "tables") "")), []⟩ ∧
    containsStr (missing_dep_msg ((dictGet INSTALL_MAPPING "tables").getD "tables") "")
      ((dictGet INSTALL_MAPPING "tables").getD "tables") ∧
    containsStr (missing_dep_msg ((dictGet INSTALL_MAPPING "tables").getD "tables") "")
      "" :=
  (missing_dependency_policy envEmpty "tables" "" none "raise" rfl).1 rfl

/-- C7: when no minimum version applies (min_version absent and the
top-level name not in the VERSIONS table), the imported module is returned
as-is for every environment — including one whose module has no version
attribute at all — so the version attribute is never inspected and the
undeterminable-version error cannot occur without an applicable floor. -/
theorem no_floor_returns_module (env : Env) (name extra errors : String)
    (m : PyModule)
    (herr : errors = "warn" ∨ errors = "raise" ∨ errors = "ignore")
    (himp : env.importModule name = some m)
    (htab : dictGet VERSIONS (parentOf name) = none) :
    import_optional_dependency env name extra none errors = ⟨.ok m, []⟩ := by
  unfold import_optional_dependency import_optional_dependency_core
  simp [herr, himp, pyOr, htab]

/-- Witness for C7: a module with no version attribute is returned
untouched when no floor applies. -/
theorem no_floor_returns_module_witness :
    import_optional_dependency envScipyNoVersion "scipy" "" none "raise" =
      ⟨.ok ⟨"scipy", none⟩, []⟩ :=
  no_floor_returns_module envScipyNoVersion "scipy" "" "raise" ⟨"scipy", none⟩
    (Or.inr (Or.inl rfl)) rfl (by decide)

/-- C3: when a minimum version applies and the installed version string of
the checked module fails to parse, an invalid-version error naming the
package is raised, with no warning, identically for all three policies. -/
theorem invalid_version_always_raises (env : Env) (name extra errors : String)
    (min_version : Option String) (m : PyModule)
    (version_str minimum_version : String)
    (herr : errors = "warn" ∨ errors = "raise" ∨ errors = "ignore")
    (himp : env.importModule name = some m)
    (hmin : pyOr min_version (dictGet VERSIONS (parentOf name)) =
      some minimum_version)
    (hmv : minimum_version ≠ "")
    (hgv : get_version ((env.sysModules (parentOf name)).getD m) =
      .ok version_str)
    (hbad : parseVersion version_str = none) :
    import_optional_dependency env name extra min_version errors =
      ⟨.raised (.importError
        (invalid_version_msg (parentOf name))), []⟩ ∧
    containsStr (invalid_version_msg (parentOf name))
      (parentOf name) := by
  constructor
  · simp [import_optional_dependency, import_optional_dependency_core, herr,
      himp, hmin, hmv, hgv, hbad]
  · exact ⟨"Invalid version for the module \x27", "\x27.",
      by simp [invalid_version_msg, String.append_assoc]⟩

/-- Witness for C3: an unparsable installed version raises even under the
ignore policy. -/
theorem invalid_version_always_raises_witness :
    import_optional_dependency envBadVersion "badmod" "" (some "1.0") "ignore" =
      ⟨.raised (.importError
        (invalid_version_msg (parentOf "badmod"))), []⟩ ∧
    containsStr (invalid_version_msg (parentOf "badmod"))
      (parentOf "badmod") :=
  invalid_version_always_raises envBadVersion "badmod" "" "ignore" (some "1.0")
    ⟨"badmod", some "not.a.version"⟩ "not.a.version" "1.0"
    (Or.inr (Or.inr rfl)) rfl (by decide) (by decide) rfl (by decide)

theorem version_msg_contains_installed (parent : String)
    (installed required : PVersion) :
    containsStr (version_mismatch_msg parent installed required) installed.render :=
  ⟨"\x27" ++ parent ++ "\x27 version \x27",
   "\x27 is installed; Dask requires version \x27" ++ required.render ++
     "\x27 or newer.",
   by simp [version_mismatch_msg, String.append_assoc]⟩

theorem version_msg_contains_required (parent : String)
    (installed required : PVersion) :
    containsStr (version_mismatch_msg parent installed required) required.render :=
  ⟨"\x27" ++ parent ++ "\x27 version \x27" ++ installed.render ++
     "\x27 is installed; Dask requires version \x27",
   "\x27 or newer.",
   by simp [version_mismatch_msg, String.append_assoc]⟩

/-- C2: when the installed version parses and is strictly below the
applicable minimum, warn emits exactly one warning mentioning both versions
and returns None, raise raises an error naming both versions, and ignore
returns None with no warning and no error. -/
theorem version_too_old_policy (env : Env) (name extra errors : String)
    (min_version : Option String) (m : PyModule)
    (version_str minimum_version : String) (installed required : PVersion)
    (herr : errors = "warn" ∨ errors = "raise" ∨ errors = "ignore")
    (himp : env.importModule name = some m)
    (hmin : pyOr min_version (dictGet VERSIONS (parentOf name)) =
      some minimum_version)
    (hmv : minimum_version ≠ "")
    (hgv : get_version ((env.sysModules (parentOf name)).getD m) =
      .ok version_str)
    (hiv : parseVersion version_str = some installed)
    (hrv : parseVersion minimum_version = some required)
    (hlt : ltParts installed.parts required.parts = true) :
    (errors = "warn" →
      import_optional_dependency env name extra min_version errors =
        ⟨.absent,
          [version_mismatch_msg (parentOf name) installed required]⟩ ∧
      containsStr (version_mismatch_msg (parentOf name)
          installed required) installed.render ∧
      containsStr (version_mismatch_msg (parentOf name)
          installed required) required.render) ∧
    (errors = "raise" →
      import_optional_dependency env name extra min_version errors =
        ⟨.raised (.importError
          (version_mismatch_msg (parentOf name)
            installed required)), []⟩ ∧
      containsStr (version_mismatch_msg (parentOf name)
          installed required) installed.render ∧
      containsStr (version_mismatch_msg (parentOf name)
          installed required) required.render) ∧
    (errors = "ignore" →
      import_optional_dependency env name extra min_version errors =
        ⟨.absent, []⟩) := by
  refine ⟨?_, ?_, ?_⟩
  · intro he; subst he
    exact ⟨by simp [import_optional_dependency, import_optional_dependency_core,
        himp, hmin, hmv, hgv, hiv, hrv, hlt],
      version_msg_contains_installed _ _ _, version_msg_contains_required _ _ _⟩
  · intro he; subst he
    exact ⟨by simp [import_optional_dependency, import_optional_dependency_core,
        himp, hmin, hmv, hgv, hiv, hrv, hlt],
      version_msg_contains_installed _ _ _, version_msg_contains_required _ _ _⟩
  · intro he; subst he
    simp [import_optional_dependency, import_optional_dependency_core,
      himp, hmin, hmv, hgv, hiv, hrv, hlt]

/-- Witness for C2: numpy 1.0.0 against the 1.21.0 table floor under warn. -/
theorem version_too_old_policy_witness :
    import_optional_dependency envNumpyOld "numpy" "" none "warn" =
      ⟨.absent,
        [version_mismatch_msg (parentOf "numpy")
          ⟨[1, 0, 0]⟩ ⟨[1, 21, 0]⟩]⟩ ∧
    containsStr (version_mismatch_msg (parentOf "numpy")
        ⟨[1, 0, 0]⟩ ⟨[1, 21, 0]⟩) (PVersion.render ⟨[1, 0, 0]⟩) ∧
    containsStr (version_mismatch_msg (parentOf "numpy")
        ⟨[1, 0, 0]⟩ ⟨[1, 21, 0]⟩) (PVersion.render ⟨[1, 21, 0]⟩) :=
  (version_too_old_policy envNumpyOld "numpy" "" "warn" none
    ⟨"numpy", some "1.0.0"⟩ "1.0.0" "1.21.0" ⟨[1, 0, 0]⟩ ⟨[1, 21, 0]⟩
    (Or.inl rfl) rfl (by decide) (by decide) rfl (by decide) (by decide)
    (by decide)).1 rfl

/-- Counterexample for C5 as stated: with an explicitly supplied (empty)
min_version argument the version-requirement table is still consulted —
the outcome depends on the table's contents, and the floor enforced is the
table's 1.21.0 rather than the supplied argument. -/
theorem min_version_supplied_still_consults_table :
    import_optional_dependency_core VERSIONS INSTALL_MAPPING envNumpyOld "numpy" ""
        (some "") "raise" ≠
      import_optional_dependency_core [] INSTALL_MAPPING envNumpyOld "numpy" ""
        (some "") "raise" ∧
    import_optional_dependency envNumpyOld "numpy" "" (some "") "raise" =
      ⟨.raised (.importError
        (version_mismatch_msg "numpy" ⟨[1, 0, 0]⟩ ⟨[1, 21, 0]⟩)), []⟩ := by
  exact ⟨by decide, by decide⟩

/-- C5 amended: a non-empty explicitly supplied min_version is used as the
required minimum with the version table not consulted; an absent
min_version behaves exactly as if the table entry for the top-level package
name had been supplied; and when neither yields a minimum, no version check
occurs and the imported module is returned. -/
theorem min_version_precedence (env : Env) (name extra errors : String)
    (min_version : Option String) (m : PyModule)
    (herr : errors = "warn" ∨ errors = "raise" ∨ errors = "ignore")
    (himp : env.importModule name = some m) :
    (∀ mv : String, mv ≠ "" → ∀ versions versions' : List (String × String),
      import_optional_dependency_core versions INSTALL_MAPPING env name extra
          (some mv) errors =
        import_optional_dependency_core versions' INSTALL_MAPPING env name extra
          (some mv) errors) ∧
    (import_optional_dependency env name extra none errors =
      import_optional_dependency env name extra
        (dictGet VERSIONS (parentOf name)) errors) ∧
    (pyOr min_version (dictGet VERSIONS (parentOf name)) = none →
      import_optional_dependency env name extra min_version errors =
        ⟨.ok m, []⟩) := by
  refine ⟨?_, ?_, ?_⟩
  · intro mv hmv versions versions'
    unfold import_optional_dependency_core
    rw [if_pos herr, himp]
    simp [herr, pyOr, hmv]
  · unfold import_optional_dependency import_optional_dependency_core
    rcases htab : dictGet VERSIONS (parentOf name) with _ | tv
    · simp [herr, himp, pyOr, htab]
    · by_cases htv : tv = "" <;> simp [herr, himp, pyOr, htab, htv]
  · intro hnone
    unfold import_optional_dependency import_optional_dependency_core
    simp [herr, himp, hnone]

/-- Witness for the amended C5: no table entry and no argument means no
check and the module comes back. -/
theorem min_version_precedence_witness :
    import_optional_dependency envScipyNoVersion "scipy" "" none "warn" =
      ⟨.ok ⟨"scipy", none⟩, []⟩ :=
  (min_version_precedence envScipyNoVersion "scipy" "" "warn" none ⟨"scipy", none⟩
    (Or.inl rfl) rfl).2.2 (by decide)
